import Mathlib

/-!
Verification of the polimarket-backend real-time chat subsystem and the
delivery-order endpoints, shallowly embedded from `src/main.py`.

Connections (websockets) are identified by natural numbers.  The
`ConnectionManager.rooms` dictionary (`Dict[int, Set[WebSocket]]`) is embedded
as an association list from chat id to a `Finset` of connection ids; a key
occurs at most once in practice, and every operation below acts on the first
occurrence, exactly as a Python dict would on its unique entry.
-/

set_option autoImplicit false

namespace Polimarket

namespace ConnectionManager

/-- The `self.rooms : Dict[int, Set[WebSocket]]` field of `ConnectionManager`. -/
abbrev Rooms := List (Nat × Finset Nat)

/-- `self.rooms.get(chat_id, set())`: the live set of room `r`, empty if the
key is absent. -/
def lookupRoom (m : Rooms) (r : Nat) : Finset Nat :=
  match m with
  | [] => ∅
  | (r', s) :: rest => if r' = r then s else lookupRoom rest r

/-- `connect`: after `await ws.accept()`, runs
`self.rooms.setdefault(chat_id, set()).add(ws)` — add `c` to the room's set,
creating the entry if absent. -/
def connect (m : Rooms) (r : Nat) (c : Nat) : Rooms :=
  match m with
  | [] => [(r, {c})]
  | (r', s) :: rest =>
      if r' = r then (r', insert c s) :: rest else (r', s) :: connect rest r c

/-- `disconnect`: `self.rooms.get(chat_id, set()).discard(ws)` — remove `c`
from the room's set if present; when the key is absent the `get` default is a
fresh set, so nothing happens. -/
def disconnect (m : Rooms) (r : Nat) (c : Nat) : Rooms :=
  match m with
  | [] => []
  | (r', s) :: rest =>
      if r' = r then (r', s.erase c) :: rest else (r', s) :: disconnect rest r c

/-- The body of `broadcast`, iterating over the snapshot
`list(self.rooms.get(chat_id, set()))`: for each connection `c` try
`await ws.send_json(message)`; if the send raises (`fails c = true`) run
`self.disconnect(chat_id, c)` and keep going.  Returns the connections that
received the payload, in iteration order, and the updated rooms mapping. -/
def broadcastList (r : Nat) (fails : Nat → Bool) : List Nat → Rooms → List Nat × Rooms
  | [], m => ([], m)
  | c :: cs, m =>
      if fails c then broadcastList r fails cs (disconnect m r c)
      else
        let p := broadcastList r fails cs m
        (c :: p.1, p.2)

/-- The snapshot `list(self.rooms.get(chat_id, set()))`.  Python's set
iteration order is arbitrary; it is modelled as ascending order, enumerated
below so that the kernel can evaluate it. -/
def snapshot (s : Finset Nat) : List Nat :=
  (List.range (s.sup id + 1)).filter (fun c => decide (c ∈ s))

/-- `broadcast(chat_id, message)`: fan the payload out over a snapshot of the
room's current live set.  `fails` tells which individual sends raise.  The
function is total: no error ever propagates to the caller. -/
def broadcast (m : Rooms) (r : Nat) (fails : Nat → Bool) : List Nat × Rooms :=
  broadcastList r fails (snapshot (lookupRoom m r)) m

end ConnectionManager

/-! Data model (from `src/models.py`), restricted to the fields the embedded
endpoints read or write.  Timestamps and autoincremented primary keys are
modelled by a counter (the current length of the table); money amounts are
modelled as `Nat` and their text rendering by `toString`. -/

structure User where
  id : Nat
  name : String
  email : String
  is_delivery : Bool
deriving DecidableEq, Repr

structure Chat where
  id : Nat
  product_id : Nat
  buyer_id : Nat
  seller_id : Nat
  payment_confirmed : Bool
deriving DecidableEq, Repr

structure Message where
  id : Nat
  chat_id : Nat
  author_id : Nat
  text : String
  created_at : Nat
deriving DecidableEq, Repr

structure Order where
  id : Nat
  buyer_id : Nat
  product_id : Nat
  seller_id : Nat
  faculty : String
  building : String
  payment_method : String
  delivery_person_id : Option Nat
  delivery_fee : Nat
  total_amount : Nat
  status : String
deriving DecidableEq, Repr

/-! The websocket endpoint `chat_ws` (`src/main.py`). -/

/-- `get_current_user_ws(token, session)`.  `jwt.decode` is abstracted:
`decoded = none` models a token whose decode raises (malformed, expired, bad
signature), `some uid` a token carrying subject `uid`.  Failure raises
`WebSocketDisconnect(code=1008)` in both branches, embedded as `.error 1008`. -/
def get_current_user_ws (decoded : Option Nat) (users : List User) : Except Nat User :=
  match decoded with
  | none => .error 1008
  | some uid =>
      match users.find? (fun u => u.id == uid) with
      | none => .error 1008
      | some u => .ok u

/-- The JSON object `chat_ws` hands to `broadcast`:
`dict author_id / text / created_at`, with `created_at` rendered by `str`. -/
def mkFrame (msg : Message) : List (String × String) :=
  [("author_id", toString msg.author_id),
   ("text", msg.text),
   ("created_at", toString msg.created_at)]

/-- One iteration's input to the receive loop, together with the
environment's behaviour for that iteration.  `disconnected` models
`await ws.receive_json()` raising `WebSocketDisconnect`; `frame data commitOk
sendFails` models a JSON object `data` arriving, with `commitOk = false`
meaning `session.commit()` raises, and `sendFails c` meaning the
`send_json` to connection `c` raises during the fan-out. -/
inductive InboundEvent where
  | disconnected
  | frame (data : List (String × String)) (commitOk : Bool) (sendFails : Nat → Bool)

/-- How the receive loop ended.  `clientDisconnect` is the handled
`WebSocketDisconnect` path (which runs `manager.disconnect`); `error` is any
other exception escaping the loop body — a `KeyError` from `data["text"]` or a
persistence failure — which the code does not catch. -/
inductive LoopExit where
  | clientDisconnect
  | error
deriving DecidableEq, Repr

/-- The mutable state threaded through one websocket session: the `message`
table, the shared rooms mapping, and a log of every `(recipient, payload)`
actually delivered by `broadcast`. -/
structure LoopState where
  messages : List Message
  rooms : ConnectionManager.Rooms
  sent : List (Nat × List (String × String))

/-- One iteration of `while True:` in `chat_ws` for user id `uid` on
connection `ws` in room `chat_id`.  Mirrors the source order: read
`data["text"]` (KeyError → uncaught), build and commit the `Message` row
(commit failure → uncaught), then broadcast the frame.  Only the
`WebSocketDisconnect` exit runs `manager.disconnect`. -/
def step (uid chat_id ws : Nat) (st : LoopState) :
    InboundEvent → LoopState × Option LoopExit
  | .disconnected =>
      ({ st with rooms := ConnectionManager.disconnect st.rooms chat_id ws },
       some .clientDisconnect)
  | .frame data commitOk sendFails =>
      match data.lookup "text" with
      | none => (st, some .error)
      | some text =>
          if commitOk then
            let msg : Message :=
              { id := st.messages.length, chat_id := chat_id, author_id := uid,
                text := text, created_at := st.messages.length }
            let br := ConnectionManager.broadcast st.rooms chat_id sendFails
            ({ messages := st.messages ++ [msg],
               rooms := br.2,
               sent := st.sent ++ br.1.map (fun d => (d, mkFrame msg)) }, none)
          else (st, some .error)

/-- The receive loop, driven by a finite list of inbound events; `none` as
exit reason means the loop is still waiting for the next unit. -/
def runLoop (uid chat_id ws : Nat) :
    List InboundEvent → LoopState → LoopState × Option LoopExit
  | [], st => (st, none)
  | e :: es, st =>
      match step uid chat_id ws st e with
      | (st', none) => runLoop uid chat_id ws es st'
      | (st', some ex) => (st', some ex)

/-- Result of one call to the `chat_ws` endpoint.  `rejected` holds the close
code when admission failed; `sessionClosed` models the `finally:
session.close()` that runs on every path. -/
structure ChatResult where
  rejected : Option Nat
  state : LoopState
  exitReason : Option LoopExit
  sessionClosed : Bool

/-- The admission guards of `chat_ws`, in source order: authenticate the
token, load the chat by id (`session.get(Chat, chat_id)`), and require the
caller to be the chat's buyer or seller; `await ws.close(code=1008)` on
failure. -/
def authorize (decoded : Option Nat) (users : List User) (chats : List Chat)
    (chat_id : Nat) : Except Nat User :=
  match get_current_user_ws decoded users with
  | .error code => .error code
  | .ok user =>
      match chats.find? (fun ch => ch.id == chat_id) with
      | none => .error 1008
      | some chat =>
          if user.id ≠ chat.buyer_id ∧ user.id ≠ chat.seller_id then .error 1008
          else .ok user

/-- The endpoint `chat_ws(chat_id, ws, token)`: run the admission guards; on
success admit via `manager.connect` and run the receive loop.  Any admission
failure closes the connection before any registry mutation. -/
def chat_ws (decoded : Option Nat) (users : List User) (chats : List Chat)
    (chat_id ws : Nat) (events : List InboundEvent)
    (messages0 : List Message) (rooms0 : ConnectionManager.Rooms) : ChatResult :=
  let st0 : LoopState := { messages := messages0, rooms := rooms0, sent := [] }
  match authorize decoded users chats chat_id with
  | .error code =>
      { rejected := some code, state := st0, exitReason := none, sessionClosed := true }
  | .ok user =>
      let st1 : LoopState :=
        { st0 with rooms := ConnectionManager.connect rooms0 chat_id ws }
      let res := runLoop user.id chat_id ws events st1
      { rejected := none, state := res.1, exitReason := res.2, sessionClosed := true }

/-! The delivery-order endpoints (`src/main.py`). -/

/-- Append a freshly committed `Message` row (autoincrement id and timestamp
modelled by the current table length). -/
def addMessage (messages : List Message) (chat_id author_id : Nat) (text : String) :
    List Message :=
  messages ++
    [{ id := messages.length, chat_id := chat_id, author_id := author_id,
       text := text, created_at := messages.length }]

/-- The welcome message a delivery person posts on acceptance (numeric
formatting abstracted to `toString`). -/
def welcome_text (user : User) (order : Order) : String :=
  "👋 **¡Hola! Soy " ++ user.name ++ ", tu repartidor.**\n" ++
  "He aceptado tu pedido para: " ++ order.faculty ++ " - " ++ order.building ++ ".\n" ++
  "Total a cobrar: $" ++ toString order.total_amount ++ " (" ++ order.payment_method ++ ").\n" ++
  "¡Voy en camino!"

/-- The system message posted to the original buyer-seller chat. -/
def accepted_sys_text (user : User) : String :=
  "ℹ️ El repartidor **" ++ user.name ++ "** ha aceptado el pedido."

/-- The message posted on completion. -/
def completed_text : String :=
  "✅ **Pedido Entregado**\n¡Gracias por usar Polimarket!"

/-- `GET /delivery/orders`: rejected with 403 unless `user.is_delivery`;
otherwise the orders whose status is pending or accepted (the model keeps
table insertion order in place of `order_by(created_at)`). -/
def get_pending_orders (user : User) (orders : List Order) : Except Nat (List Order) :=
  if !user.is_delivery then .error 403
  else .ok (orders.filter (fun o => o.status == "pending" || o.status == "accepted"))

/-- `PUT /delivery/orders/order_id` with body `status`, acting as `user`.
404 when no such order; for `status = "accepted"`, 400 when the order is
already taken by a different delivery person (the in-memory mutation before
the raise is never committed, so the stores are unchanged); otherwise commit
the status (and, when accepting, the delivery person id), then post the
side-effect chat messages exactly as the source does.  Returns the updated
order, chat and message tables. -/
def update_order_status (order_id : Nat) (status : String) (user : User)
    (orders : List Order) (chats : List Chat) (messages : List Message) :
    Except Nat (List Order × List Chat × List Message) :=
  match orders.find? (fun o => o.id == order_id) with
  | none => .error 404
  | some order =>
      if status == "accepted" && order.delivery_person_id.isSome
          && order.delivery_person_id != some user.id then
        .error 400
      else
        let order' : Order :=
          { order with
            status := status,
            delivery_person_id :=
              if status == "accepted" then some user.id else order.delivery_person_id }
        let orders' := orders.map (fun o => if o.id == order_id then order' else o)
        if status == "accepted" then
          let found := chats.find? (fun ch =>
            ch.product_id == order.product_id && ch.buyer_id == order.buyer_id
              && ch.seller_id == user.id)
          let pair :=
            match found with
            | some dchat => (dchat.id, chats)
            | none =>
                let dchat : Chat :=
                  { id := chats.length, product_id := order.product_id,
                    buyer_id := order.buyer_id, seller_id := user.id,
                    payment_confirmed := true }
                (dchat.id, chats ++ [dchat])
          let chats' := pair.2
          let messages1 := addMessage messages pair.1 user.id (welcome_text user order)
          let messages2 :=
            match chats'.find? (fun ch =>
                ch.product_id == order.product_id && ch.buyer_id == order.buyer_id
                  && ch.seller_id == order.seller_id) with
            | some ochat => addMessage messages1 ochat.id user.id (accepted_sys_text user)
            | none => messages1
          .ok (orders', chats', messages2)
        else if status == "completed" then
          match chats.find? (fun ch =>
              ch.product_id == order.product_id && ch.buyer_id == order.buyer_id
                && ch.seller_id == user.id) with
          | some ch => .ok (orders', chats, addMessage messages ch.id user.id completed_text)
          | none => .ok (orders', chats, messages)
        else
          .ok (orders', chats, messages)

/-- Invariant of the receive loop: every logged delivery carries the frame of
a committed `Message` row of the same author, room and content. -/
def sentOk (uid chat_id : Nat) (st : LoopState) : Prop :=
  ∀ e ∈ st.sent, ∃ msg ∈ st.messages,
    msg.author_id = uid ∧ msg.chat_id = chat_id ∧ e.2 = mkFrame msg

/-! Registry lemmas. -/

namespace ConnectionManager

theorem lookupRoom_connect_self (m : Rooms) (r c : Nat) :
    lookupRoom (connect m r c) r = insert c (lookupRoom m r) := by
  induction m with
  | nil => simp [connect, lookupRoom]
  | cons hd tl ih =>
      obtain ⟨r', s⟩ := hd
      by_cases h : r' = r <;> simp [connect, lookupRoom, h, ih]

theorem lookupRoom_disconnect_self (m : Rooms) (r c : Nat) :
    lookupRoom (disconnect m r c) r = (lookupRoom m r).erase c := by
  induction m with
  | nil => simp [disconnect, lookupRoom]
  | cons hd tl ih =>
      obtain ⟨r', s⟩ := hd
      by_cases h : r' = r <;> simp [disconnect, lookupRoom, h, ih]

theorem lookupRoom_disconnect_other (m : Rooms) (r r' c : Nat) (h : r' ≠ r) :
    lookupRoom (disconnect m r c) r' = lookupRoom m r' := by
  induction m with
  | nil => rfl
  | cons hd tl ih =>
      obtain ⟨k, s⟩ := hd
      by_cases hk : k = r
      · subst hk
        have hk' : k ≠ r' := fun hh => h hh.symm
        simp [disconnect, lookupRoom, hk']
      · by_cases hk' : k = r' <;> simp [disconnect, lookupRoom, hk, hk', h, ih]

theorem lookupRoom_disconnect_subset (m : Rooms) (r r' c : Nat) :
    lookupRoom (disconnect m r c) r' ⊆ lookupRoom m r' := by
  by_cases h : r' = r
  · subst h
    rw [lookupRoom_disconnect_self]
    exact Finset.erase_subset _ _
  · rw [lookupRoom_disconnect_other m r r' c h]

theorem connect_idem (m : Rooms) (r c : Nat) :
    connect (connect m r c) r c = connect m r c := by
  induction m with
  | nil => simp [connect]
  | cons hd tl ih =>
      obtain ⟨r', s⟩ := hd
      by_cases h : r' = r <;> simp [connect, h, ih]

theorem disconnect_idem (m : Rooms) (r c : Nat) :
    disconnect (disconnect m r c) r c = disconnect m r c := by
  induction m with
  | nil => rfl
  | cons hd tl ih =>
      obtain ⟨r', s⟩ := hd
      by_cases h : r' = r <;> simp [disconnect, h, ih]

theorem disconnect_of_not_mem (m : Rooms) (r c : Nat) (h : c ∉ lookupRoom m r) :
    disconnect m r c = m := by
  induction m with
  | nil => rfl
  | cons hd tl ih =>
      obtain ⟨r', s⟩ := hd
      by_cases hr : r' = r
      · subst hr
        simp only [lookupRoom, if_true, eq_self_iff_true] at h
        simp [disconnect, Finset.erase_eq_of_not_mem h]
      · simp only [lookupRoom, if_neg hr] at h
        simp [disconnect, hr, ih h]

theorem disconnect_map_fst (m : Rooms) (r c : Nat) :
    (disconnect m r c).map Prod.fst = m.map Prod.fst := by
  induction m with
  | nil => rfl
  | cons hd tl ih =>
      obtain ⟨r', s⟩ := hd
      by_cases h : r' = r <;> simp [disconnect, h, ih]

theorem disconnect_of_not_key (m : Rooms) (r c : Nat) (h : r ∉ m.map Prod.fst) :
    disconnect m r c = m := by
  induction m with
  | nil => rfl
  | cons hd tl ih =>
      obtain ⟨r', s⟩ := hd
      simp only [List.map_cons, List.mem_cons, not_or] at h
      have hne : r' ≠ r := fun hh => h.1 hh.symm
      simp [disconnect, hne, ih h.2]

theorem broadcastList_fst (r : Nat) (fails : Nat → Bool) (ts : List Nat) (m : Rooms) :
    (broadcastList r fails ts m).1 = ts.filter (fun c => !fails c) := by
  induction ts generalizing m with
  | nil => rfl
  | cons c cs ih =>
      by_cases h : fails c <;> simp [broadcastList, h, ih]

theorem broadcastList_rooms_subset (r : Nat) (fails : Nat → Bool) (ts : List Nat)
    (m : Rooms) (r' : Nat) :
    lookupRoom (broadcastList r fails ts m).2 r' ⊆ lookupRoom m r' := by
  induction ts generalizing m with
  | nil => exact Finset.Subset.refl _
  | cons c cs ih =>
      by_cases h : fails c
      · simp only [broadcastList, h, if_pos]
        exact (ih (disconnect m r c)).trans (lookupRoom_disconnect_subset m r r' c)
      · simpa [broadcastList, h] using ih m

theorem not_mem_broadcastList_rooms (r : Nat) (fails : Nat → Bool) (ts : List Nat)
    (m : Rooms) (c : Nat) (hf : fails c = true) (hc : c ∈ ts) :
    c ∉ lookupRoom (broadcastList r fails ts m).2 r := by
  induction ts generalizing m with
  | nil => cases hc
  | cons a cs ih =>
      by_cases ha : a = c
      · subst ha
        simp only [broadcastList, hf, if_true]
        intro hmem
        have hsub := broadcastList_rooms_subset r fails cs (disconnect m r a) r hmem
        rw [lookupRoom_disconnect_self] at hsub
        exact Finset.not_mem_erase a _ hsub
      · have hc' : c ∈ cs := by
          cases hc with
          | head => exact absurd rfl ha
          | tail _ h => exact h
        by_cases h : fails a
        · simp only [broadcastList, h, if_true]
          exact ih (disconnect m r a) hc'
        · simp only [broadcastList, h, Bool.false_eq_true, if_false]
          exact ih m hc'

theorem mem_snapshot (s : Finset Nat) (c : Nat) : c ∈ snapshot s ↔ c ∈ s := by
  unfold snapshot
  simp only [List.mem_filter, List.mem_range, decide_eq_true_eq]
  constructor
  · exact fun h => h.2
  · intro h
    refine ⟨Nat.lt_succ_of_le ?_, h⟩
    exact Finset.le_sup (f := id) h

theorem mem_broadcast_fst (m : Rooms) (r : Nat) (fails : Nat → Bool) (c : Nat) :
    c ∈ (broadcast m r fails).1 ↔ c ∈ lookupRoom m r ∧ fails c = false := by
  rw [broadcast, broadcastList_fst]
  simp [List.mem_filter, mem_snapshot]

theorem not_mem_broadcast_rooms (m : Rooms) (r : Nat) (fails : Nat → Bool) (c : Nat)
    (hf : fails c = true) :
    c ∉ lookupRoom (broadcast m r fails).2 r := by
  by_cases hc : c ∈ lookupRoom m r
  · exact not_mem_broadcastList_rooms r fails _ m c hf ((mem_snapshot _ c).2 hc)
  · intro hmem
    exact hc (broadcastList_rooms_subset r fails _ m r hmem)

end ConnectionManager

/-! Receive-loop lemmas. -/

theorem step_sentOk (uid chat_id ws : Nat) (st : LoopState) (ev : InboundEvent)
    (h : sentOk uid chat_id st) : sentOk uid chat_id (step uid chat_id ws st ev).1 := by
  cases ev with
  | disconnected =>
      intro e he
      simp only [step] at he
      exact h e he
  | frame data commitOk sendFails =>
      intro e he
      cases hT : data.lookup "text" with
      | none =>
          simp only [step, hT] at he ⊢
          exact h e he
      | some text =>
          by_cases hC : commitOk
          · simp only [step, hT, hC, if_true] at he ⊢
            rcases List.mem_append.1 he with h1 | h2
            · obtain ⟨msg, hm, ha, hc, hf⟩ := h e h1
              exact ⟨msg, List.mem_append_left _ hm, ha, hc, hf⟩
            · obtain ⟨d, _, rfl⟩ := List.mem_map.1 h2
              refine ⟨_, List.mem_append_right _ (List.mem_singleton.2 rfl), rfl, rfl, rfl⟩
          · simp only [step, hT, hC] at he ⊢
            simp only [Bool.false_eq_true, if_false] at he ⊢
            exact h e he

theorem runLoop_sentOk (uid chat_id ws : Nat) (events : List InboundEvent) (st : LoopState)
    (h : sentOk uid chat_id st) :
    sentOk uid chat_id (runLoop uid chat_id ws events st).1 := by
  induction events generalizing st with
  | nil => simpa [runLoop] using h
  | cons e es ih =>
      have hstep := step_sentOk uid chat_id ws st e h
      cases hs : step uid chat_id ws st e with
      | mk st' ex =>
          rw [hs] at hstep
          cases ex with
          | none => simpa [runLoop, hs] using ih st' hstep
          | some x => simpa [runLoop, hs] using hstep

/-- When the loop ends on the handled `WebSocketDisconnect` path, the
connection has been removed from its room's live set. -/
theorem runLoop_clientDisconnect (uid chat_id ws : Nat) (events : List InboundEvent)
    (st : LoopState)
    (h : (runLoop uid chat_id ws events st).2 = some .clientDisconnect) :
    ws ∉ ConnectionManager.lookupRoom (runLoop uid chat_id ws events st).1.rooms chat_id := by
  induction events generalizing st with
  | nil => simp [runLoop] at h
  | cons e es ih =>
      cases e with
      | disconnected =>
          simp only [runLoop, step]
          rw [ConnectionManager.lookupRoom_disconnect_self]
          exact Finset.not_mem_erase ws _
      | frame data commitOk sendFails =>
          cases hT : data.lookup "text" with
          | none => simp [runLoop, step, hT] at h
          | some text =>
              by_cases hC : commitOk
              · simp only [runLoop, step, hT, hC, if_true] at h ⊢
                exact ih _ h
              · simp [runLoop, step, hT, hC] at h

/-- Both failure branches of `get_current_user_ws` raise
`WebSocketDisconnect(code=1008)`. -/
theorem get_current_user_ws_error (decoded : Option Nat) (users : List User) (code : Nat)
    (h : get_current_user_ws decoded users = .error code) : code = 1008 := by
  unfold get_current_user_ws at h
  split at h
  · injection h with h'
    exact h'.symm
  · rename_i uid
    split at h
    · injection h with h'
      exact h'.symm
    · exact Except.noConfusion h

/-- Every admission failure of `chat_ws` closes with the policy code 1008. -/
theorem authorize_error (decoded : Option Nat) (users : List User) (chats : List Chat)
    (chat_id code : Nat)
    (h : authorize decoded users chats chat_id = .error code) : code = 1008 := by
  unfold authorize at h
  split at h
  · rename_i c hu
    injection h with h'
    subst h'
    exact get_current_user_ws_error decoded users c hu
  · rename_i u hu
    split at h
    · injection h with h'
      exact h'.symm
    · rename_i chat hf
      split at h
      · injection h with h'
        exact h'.symm
      · exact Except.noConfusion h

/-- A successful admission returns exactly the authenticated user. -/
theorem authorize_ok (decoded : Option Nat) (users : List User) (chats : List Chat)
    (chat_id : Nat) (user : User)
    (h : authorize decoded users chats chat_id = .ok user) :
    get_current_user_ws decoded users = .ok user := by
  unfold authorize at h
  split at h
  · exact Except.noConfusion h
  · rename_i u hu
    split at h
    · exact Except.noConfusion h
    · rename_i chat hf
      split at h
      · exact Except.noConfusion h
      · injection h with h'
        subst h'
        exact hu

/-- Every delivery logged by a `chat_ws` session carries the frame of a
committed `Message` row authored by the authenticated user in the session's
room. -/
theorem chat_ws_sent_spec (decoded : Option Nat) (users : List User) (chats : List Chat)
    (chat_id ws : Nat) (events : List InboundEvent) (messages0 : List Message)
    (rooms0 : ConnectionManager.Rooms) (e : Nat × List (String × String))
    (he : e ∈ (chat_ws decoded users chats chat_id ws events messages0 rooms0).state.sent) :
    ∃ user, get_current_user_ws decoded users = .ok user ∧
      ∃ msg ∈ (chat_ws decoded users chats chat_id ws events messages0 rooms0).state.messages,
        msg.author_id = user.id ∧ msg.chat_id = chat_id ∧ e.2 = mkFrame msg := by
  cases hA : authorize decoded users chats chat_id with
  | error code =>
      simp only [chat_ws, hA] at he
      exact absurd he (List.not_mem_nil e)
  | ok user =>
      simp only [chat_ws, hA] at he ⊢
      refine ⟨user, authorize_ok decoded users chats chat_id user hA, ?_⟩
      exact runLoop_sentOk user.id chat_id ws events _
        (fun x hx => absurd hx (List.not_mem_nil x)) e he

/-! The claims. -/

/-- C1 fails as stated: in a concrete admitted session (user 5 on connection
10 in room 1, whose live set also holds connection 20), the payload sent from
connection 10 is delivered back to connection 10 itself — `broadcast` iterates
over the whole live set and does not exclude the sending connection. -/
theorem C1_counterexample :
    (10, [("author_id", "5"), ("text", "hi"), ("created_at", "0")]) ∈
      (chat_ws (some 5) [⟨5, "Bea", "b@espol.edu.ec", false⟩] [⟨1, 2, 5, 6, false⟩] 1 10
        [.frame [("text", "hi")] true (fun _ => false)] [] [(1, {20})]).state.sent := by
  decide

/-- C1 (amended): `broadcast` on room `r` delivers the payload to exactly the
connections in `r`'s live set whose send succeeds — including the sending
connection, which the code does not exclude — and to no other connection, so
the fan-out never crosses rooms. -/
theorem C1_amended_broadcast_delivers_to_room (m : ConnectionManager.Rooms) (r : Nat)
    (fails : Nat → Bool) (c : Nat) :
    c ∈ (ConnectionManager.broadcast m r fails).1 ↔
      c ∈ ConnectionManager.lookupRoom m r ∧ fails c = false :=
  ConnectionManager.mem_broadcast_fst m r fails c

/-- C2: persistence happens-before broadcast — every payload logged as
delivered during a `chat_ws` session is the frame of a `Message` row already
committed by the same iteration, whose author is the connection's
authenticated user, whose room is the connection's room, and whose text is
the broadcast text; no payload is ever delivered without such a row. -/
theorem C2_persist_before_broadcast (decoded : Option Nat) (users : List User)
    (chats : List Chat) (chat_id ws : Nat) (events : List InboundEvent)
    (messages0 : List Message) (rooms0 : ConnectionManager.Rooms)
    (e : Nat × List (String × String))
    (he : e ∈ (chat_ws decoded users chats chat_id ws events messages0 rooms0).state.sent) :
    ∃ user, get_current_user_ws decoded users = .ok user ∧
      ∃ msg ∈ (chat_ws decoded users chats chat_id ws events messages0 rooms0).state.messages,
        msg.author_id = user.id ∧ msg.chat_id = chat_id ∧ e.2 = mkFrame msg :=
  chat_ws_sent_spec decoded users chats chat_id ws events messages0 rooms0 e he

/-- Witness for C2 at a concrete session: user 5 sends "hi" in room 1 and the
frame delivered to connection 10 matches a committed row. -/
theorem C2_witness :
    ∃ user, get_current_user_ws (some 5) [⟨5, "Bea", "b@espol.edu.ec", false⟩] = .ok user ∧
      ∃ msg ∈ (chat_ws (some 5) [⟨5, "Bea", "b@espol.edu.ec", false⟩] [⟨1, 2, 5, 6, false⟩]
          1 10 [.frame [("text", "hi")] true (fun _ => false)] []
          [(1, {20})]).state.messages,
        msg.author_id = user.id ∧ msg.chat_id = 1 ∧
          (20, [("author_id", "5"), ("text", "hi"), ("created_at", "0")]).2 = mkFrame msg :=
  C2_persist_before_broadcast (some 5) [⟨5, "Bea", "b@espol.edu.ec", false⟩]
    [⟨1, 2, 5, 6, false⟩] 1 10 [.frame [("text", "hi")] true (fun _ => false)] [] [(1, {20})]
    (20, [("author_id", "5"), ("text", "hi"), ("created_at", "0")]) (by decide)

/-- C3 fails as stated: a malformed inbound unit (missing the "text" key)
raises `KeyError`, which the loop's handler — it catches only
`WebSocketDisconnect` — does not intercept, so the loop exits without running
`manager.disconnect`: connection 10 is still in room 1's live set. -/
theorem C3_counterexample :
    (chat_ws (some 5) [⟨5, "Bea", "b@espol.edu.ec", false⟩] [⟨1, 2, 5, 6, false⟩] 1 10
        [.frame [] true (fun _ => false)] [] []).exitReason = some .error ∧
      10 ∈ ConnectionManager.lookupRoom
        (chat_ws (some 5) [⟨5, "Bea", "b@espol.edu.ec", false⟩] [⟨1, 2, 5, 6, false⟩] 1 10
          [.frame [] true (fun _ => false)] [] []).state.rooms 1 := by
  decide

/-- C3 (amended): the registry removal is guaranteed only on the handled
`WebSocketDisconnect` exit (client disconnect or transport failure surfaced
by the receive), where the connection is removed from its room's live set;
the session handle is released on every path (`finally: session.close()`),
but an exception raised while processing an inbound unit leaves the live set
untouched. -/
theorem C3_amended_cleanup_on_disconnect (decoded : Option Nat) (users : List User)
    (chats : List Chat) (chat_id ws : Nat) (events : List InboundEvent)
    (messages0 : List Message) (rooms0 : ConnectionManager.Rooms)
    (h : (chat_ws decoded users chats chat_id ws events messages0 rooms0).exitReason =
      some .clientDisconnect) :
    ws ∉ ConnectionManager.lookupRoom
        (chat_ws decoded users chats chat_id ws events messages0 rooms0).state.rooms chat_id ∧
      (chat_ws decoded users chats chat_id ws events messages0 rooms0).sessionClosed = true := by
  cases hA : authorize decoded users chats chat_id with
  | error code =>
      simp only [chat_ws, hA] at h
      exact absurd h (by simp)
  | ok user =>
      simp only [chat_ws, hA] at h ⊢
      exact ⟨runLoop_clientDisconnect user.id chat_id ws events _ h, trivial⟩

/-- Witness for C3 (amended): a client disconnect removes connection 10 from
room 1. -/
theorem C3_witness :
    (10 : Nat) ∉ ConnectionManager.lookupRoom
        (chat_ws (some 5) [⟨5, "Bea", "b@espol.edu.ec", false⟩] [⟨1, 2, 5, 6, false⟩] 1 10
          [.disconnected] [] []).state.rooms 1 ∧
      (chat_ws (some 5) [⟨5, "Bea", "b@espol.edu.ec", false⟩] [⟨1, 2, 5, 6, false⟩] 1 10
        [.disconnected] [] []).sessionClosed = true :=
  C3_amended_cleanup_on_disconnect (some 5) [⟨5, "Bea", "b@espol.edu.ec", false⟩]
    [⟨1, 2, 5, 6, false⟩] 1 10 [.disconnected] [] [] (by decide)

/-- C4 fails as stated: when `session.commit()` raises on the first inbound
message, the loop does not continue to the next unit — the exception escapes
the loop (only `WebSocketDisconnect` is caught), so the second inbound unit
is never processed and nothing is ever persisted or broadcast. -/
theorem C4_counterexample :
    (chat_ws (some 5) [⟨5, "Bea", "b@espol.edu.ec", false⟩] [⟨1, 2, 5, 6, false⟩] 1 10
        [.frame [("text", "hi")] false (fun _ => false),
         .frame [("text", "yo")] true (fun _ => false)] [] []).exitReason = some .error ∧
      (chat_ws (some 5) [⟨5, "Bea", "b@espol.edu.ec", false⟩] [⟨1, 2, 5, 6, false⟩] 1 10
        [.frame [("text", "hi")] false (fun _ => false),
         .frame [("text", "yo")] true (fun _ => false)] [] []).state.messages = [] ∧
      (chat_ws (some 5) [⟨5, "Bea", "b@espol.edu.ec", false⟩] [⟨1, 2, 5, 6, false⟩] 1 10
        [.frame [("text", "hi")] false (fun _ => false),
         .frame [("text", "yo")] true (fun _ => false)] [] []).state.sent = [] := by
  decide

/-- C4 (amended): a persistence failure drops the affected message — nothing
is committed, nothing is broadcast, the state is exactly unchanged — but it
is fatal to the connection, not just to the message: the exception escapes
the loop with an error exit and no further inbound unit is processed. -/
theorem C4_amended_commit_failure_fatal (uid chat_id ws : Nat)
    (data : List (String × String)) (sendFails : Nat → Bool) (es : List InboundEvent)
    (st : LoopState) (t : String) (ht : data.lookup "text" = some t) :
    runLoop uid chat_id ws (.frame data false sendFails :: es) st = (st, some .error) := by
  simp [runLoop, step, ht]

/-- Witness for C4 (amended) at a concrete failing commit. -/
theorem C4_witness :
    runLoop 5 1 10 [.frame [("text", "hi")] false (fun _ => false)]
        { messages := [], rooms := [(1, {10})], sent := [] } =
      ({ messages := [], rooms := [(1, {10})], sent := [] }, some .error) :=
  C4_amended_commit_failure_fatal 5 1 10 [("text", "hi")] (fun _ => false) []
    { messages := [], rooms := [(1, {10})], sent := [] } "hi" (by rfl)

/-- C5 fails as stated: a frame produced by a concrete session has no
author_name field — the dict built in `chat_ws` holds only author_id, text
and created_at. -/
theorem C5_counterexample :
    ∃ e ∈ (chat_ws (some 5) [⟨5, "Bea", "b@espol.edu.ec", false⟩] [⟨1, 2, 5, 6, false⟩] 1 10
        [.frame [("text", "hi")] true (fun _ => false)] [] [(1, {20})]).state.sent,
      "author_name" ∉ e.2.map Prod.fst := by
  decide

/-- C5 (amended): every outbound broadcast frame produced by the ingest
pipeline contains exactly the three fields author_id, text and created_at —
no author_name — and its values are those of a committed message row
(`mkFrame`): the author's integer id, the persisted text, and the persisted
timestamp rendered as text. -/
theorem C5_amended_frame_fields (decoded : Option Nat) (users : List User)
    (chats : List Chat) (chat_id ws : Nat) (events : List InboundEvent)
    (messages0 : List Message) (rooms0 : ConnectionManager.Rooms)
    (e : Nat × List (String × String))
    (he : e ∈ (chat_ws decoded users chats chat_id ws events messages0 rooms0).state.sent) :
    e.2.map Prod.fst = ["author_id", "text", "created_at"] ∧
      ∃ msg ∈ (chat_ws decoded users chats chat_id ws events messages0 rooms0).state.messages,
        e.2 = mkFrame msg := by
  obtain ⟨user, -, msg, hmem, -, -, hframe⟩ :=
    chat_ws_sent_spec decoded users chats chat_id ws events messages0 rooms0 e he
  exact ⟨by rw [hframe]; rfl, msg, hmem, hframe⟩

/-- Witness for C5 (amended) at a concrete delivered frame. -/
theorem C5_witness :
    (10, [("author_id", "5"), ("text", "hi"), ("created_at", "0")]).2.map Prod.fst =
        ["author_id", "text", "created_at"] ∧
      ∃ msg ∈ (chat_ws (some 5) [⟨5, "Bea", "b@espol.edu.ec", false⟩] [⟨1, 2, 5, 6, false⟩]
          1 10 [.frame [("text", "hi")] true (fun _ => false)] []
          [(1, {20})]).state.messages,
        (10, [("author_id", "5"), ("text", "hi"), ("created_at", "0")]).2 = mkFrame msg :=
  C5_amended_frame_fields (some 5) [⟨5, "Bea", "b@espol.edu.ec", false⟩]
    [⟨1, 2, 5, 6, false⟩] 1 10 [.frame [("text", "hi")] true (fun _ => false)] [] [(1, {20})]
    (10, [("author_id", "5"), ("text", "hi"), ("created_at", "0")]) (by decide)

/-- C6: during a broadcast to room `r`, a send failure on connection `c` is
isolated to `c`: any other connection `d` whose send succeeds receives the
payload exactly when it is in the room's live set, no error reaches the
caller (`broadcast` is a total function), and `c` is removed from the room's
live set by the broadcast. -/
theorem C6_send_failure_isolated (m : ConnectionManager.Rooms) (r : Nat)
    (fails : Nat → Bool) (c d : Nat) (hc : fails c = true) (hd : fails d = false) :
    c ∉ ConnectionManager.lookupRoom (ConnectionManager.broadcast m r fails).2 r ∧
      (d ∈ (ConnectionManager.broadcast m r fails).1 ↔
        d ∈ ConnectionManager.lookupRoom m r) := by
  refine ⟨ConnectionManager.not_mem_broadcast_rooms m r fails c hc, ?_⟩
  rw [ConnectionManager.mem_broadcast_fst]
  simp [hd]

/-- Witness for C6: connection 10's send fails, connection 20 still receives
and 10 is gone from room 1 afterwards. -/
theorem C6_witness :
    (10 : Nat) ∉ ConnectionManager.lookupRoom
        (ConnectionManager.broadcast [(1, {10, 20})] 1 (fun n => n == 10)).2 1 ∧
      ((20 : Nat) ∈ (ConnectionManager.broadcast [(1, {10, 20})] 1 (fun n => n == 10)).1 ↔
        (20 : Nat) ∈ ConnectionManager.lookupRoom [(1, {10, 20})] 1) :=
  C6_send_failure_isolated [(1, {10, 20})] 1 (fun n => n == 10) 10 20 (by decide) (by decide)

/-- C7: every connection attempt that fails admission — undecodable token,
unknown user, nonexistent chat, or a caller who is neither the chat's buyer
nor its seller — is closed with the policy-violation code 1008, and the Room
Registry is exactly unchanged: no room's live set is touched, nothing is
persisted, nothing is delivered. -/
theorem C7_rejected_admission (decoded : Option Nat) (users : List User) (chats : List Chat)
    (chat_id ws : Nat) (events : List InboundEvent) (messages0 : List Message)
    (rooms0 : ConnectionManager.Rooms) (code : Nat)
    (h : (chat_ws decoded users chats chat_id ws events messages0 rooms0).rejected =
      some code) :
    code = 1008 ∧
      (chat_ws decoded users chats chat_id ws events messages0 rooms0).state.rooms = rooms0 ∧
      (chat_ws decoded users chats chat_id ws events messages0 rooms0).state.messages =
        messages0 ∧
      (chat_ws decoded users chats chat_id ws events messages0 rooms0).state.sent = [] := by
  cases hA : authorize decoded users chats chat_id with
  | error c =>
      simp only [chat_ws, hA] at h ⊢
      have h' : c = code := by simpa using h
      have hc : code = 1008 := by
        rw [← h']
        exact authorize_error decoded users chats chat_id c hA
      exact ⟨hc, trivial, trivial, trivial⟩
  | ok user =>
      simp only [chat_ws, hA] at h
      exact Option.noConfusion h

/-- Witness for C7: an undecodable token is rejected with 1008 and room 1's
set (holding connection 20) is untouched. -/
theorem C7_witness :
    (1008 : Nat) = 1008 ∧
      (chat_ws none [] [] 1 10 [] [] [(1, {20})]).state.rooms = [(1, {20})] ∧
      (chat_ws none [] [] 1 10 [] [] [(1, {20})]).state.messages = [] ∧
      (chat_ws none [] [] 1 10 [] [] [(1, {20})]).state.sent = [] :=
  C7_rejected_admission none [] [] 1 10 [] [] [(1, {20})] 1008 (by decide)

/-- C8: registry join and leave are idempotent — `connect` twice equals
`connect` once (the room's set being created if absent, with `c` a member
afterwards), `disconnect` twice equals `disconnect` once, and `disconnect`
is a no-op when the connection is not in the room's set. -/
theorem C8_join_leave_idempotent (m : ConnectionManager.Rooms) (r c : Nat) :
    ConnectionManager.connect (ConnectionManager.connect m r c) r c =
        ConnectionManager.connect m r c ∧
      ConnectionManager.lookupRoom (ConnectionManager.connect m r c) r =
        insert c (ConnectionManager.lookupRoom m r) ∧
      ConnectionManager.disconnect (ConnectionManager.disconnect m r c) r c =
        ConnectionManager.disconnect m r c ∧
      (c ∉ ConnectionManager.lookupRoom m r → ConnectionManager.disconnect m r c = m) :=
  ⟨ConnectionManager.connect_idem m r c, ConnectionManager.lookupRoom_connect_self m r c,
   ConnectionManager.disconnect_idem m r c, ConnectionManager.disconnect_of_not_mem m r c⟩

/-- Witness for C8 on a concrete registry. -/
theorem C8_witness :
    ConnectionManager.connect (ConnectionManager.connect [] 1 2) 1 2 =
        ConnectionManager.connect [] 1 2 ∧
      ConnectionManager.disconnect ([(1, {9})] : ConnectionManager.Rooms) 1 2 = [(1, {9})] :=
  ⟨(C8_join_leave_idempotent [] 1 2).1,
   (C8_join_leave_idempotent [(1, {9})] 1 2).2.2.2 (by decide)⟩

/-- C9: `disconnect` never grows (or shrinks) the set of room keys of the
registry — the keys after `disconnect` are exactly the keys before — and
calling it with a room id that has no entry leaves the registry exactly
unchanged; only `connect` can create a room entry. -/
theorem C9_disconnect_preserves_rooms (m : ConnectionManager.Rooms) (r c : Nat) :
    (ConnectionManager.disconnect m r c).map Prod.fst = m.map Prod.fst ∧
      (r ∉ m.map Prod.fst → ConnectionManager.disconnect m r c = m) :=
  ⟨ConnectionManager.disconnect_map_fst m r c,
   ConnectionManager.disconnect_of_not_key m r c⟩

/-- Witness for C9: disconnecting from the absent room 2 changes nothing. -/
theorem C9_witness :
    (ConnectionManager.disconnect [(1, {10})] 2 10).map Prod.fst =
        ([(1, ({10} : Finset Nat))] : ConnectionManager.Rooms).map Prod.fst ∧
      ConnectionManager.disconnect [(1, {10})] 2 10 = [(1, {10})] :=
  ⟨(C9_disconnect_preserves_rooms [(1, {10})] 2 10).1,
   (C9_disconnect_preserves_rooms [(1, {10})] 2 10).2 (by decide)⟩

/-- Elements of the updated orders table carrying the updated id have the
replacement's status. -/
theorem status_of_mem_map (orders : List Order) (order' : Order) (order_id : Nat)
    (o : Order) (ho : o ∈ orders.map (fun x => if x.id == order_id then order' else x))
    (hid : (o.id == order_id) = true) : o.status = order'.status := by
  obtain ⟨x, -, rfl⟩ := List.mem_map.1 ho
  by_cases hx : (x.id == order_id) = true
  · rw [if_pos hx]
  · rw [if_neg hx] at hid ⊢
    exact absurd hid hx

/-- When the taken-by-another-courier guard is off, `update_order_status`
succeeds and the orders table is the input table with the found order's
status (and, on acceptance, courier id) updated. -/
theorem update_order_status_ok (order_id : Nat) (status : String) (user : User)
    (orders : List Order) (chats : List Chat) (messages : List Message) (order : Order)
    (hfind : orders.find? (fun o => o.id == order_id) = some order)
    (hgf : (status == "accepted" && order.delivery_person_id.isSome
      && (order.delivery_person_id != some user.id)) = false) :
    ∃ res, update_order_status order_id status user orders chats messages = .ok res ∧
      res.1 = orders.map (fun o => if o.id == order_id then
        { order with
          status := status,
          delivery_person_id :=
            if status == "accepted" then some user.id
            else order.delivery_person_id } else o) := by
  unfold update_order_status
  rw [hfind]
  simp only [hgf, Bool.false_eq_true, if_false]
  by_cases hacc : (status == "accepted") = true
  · simp only [hacc, if_true]
    exact ⟨_, rfl, rfl⟩
  · simp only [hacc, Bool.false_eq_true, if_false]
    by_cases hcomp : (status == "completed") = true
    · simp only [hcomp, if_true]
      cases hfound : chats.find? (fun ch =>
          ch.product_id == order.product_id && ch.buyer_id == order.buyer_id
            && ch.seller_id == user.id) with
      | none => simp only [hfound]; exact ⟨_, rfl, rfl⟩
      | some ch => simp only [hfound]; exact ⟨_, rfl, rfl⟩
    · simp only [hcomp, Bool.false_eq_true, if_false]
      exact ⟨_, rfl, rfl⟩

/-- C10: `update_order_status` performs no delivery-role check — any
authenticated user updating any existing order succeeds and the stored order
takes the requested status, failing only when the status is "accepted" and
the order already carries a different delivery person — while
`get_pending_orders` rejects with 403 every user whose `is_delivery` flag is
false. -/
theorem C10_update_status_no_delivery_check (user : User) (orders : List Order)
    (chats : List Chat) (messages : List Message) (order_id : Nat) (status : String)
    (order : Order) (hfind : orders.find? (fun o => o.id == order_id) = some order) :
    (¬(status = "accepted" ∧ ∃ d, order.delivery_person_id = some d ∧ d ≠ user.id) →
        ∃ res, update_order_status order_id status user orders chats messages = .ok res ∧
          ∀ o ∈ res.1, (o.id == order_id) = true → o.status = status) ∧
      ((status = "accepted" ∧ ∃ d, order.delivery_person_id = some d ∧ d ≠ user.id) →
        update_order_status order_id status user orders chats messages = .error 400) ∧
      (user.is_delivery = false → get_pending_orders user orders = .error 403) := by
  have hg : (status == "accepted" && order.delivery_person_id.isSome
      && (order.delivery_person_id != some user.id)) = true ↔
      (status = "accepted" ∧ ∃ d, order.delivery_person_id = some d ∧ d ≠ user.id) := by
    cases hdp : order.delivery_person_id with
    | none => simp [hdp]
    | some d => simp [hdp]
  refine ⟨?_, ?_, ?_⟩
  · intro hP
    have hgf : (status == "accepted" && order.delivery_person_id.isSome
        && (order.delivery_person_id != some user.id)) = false := by
      by_cases hb : (status == "accepted" && order.delivery_person_id.isSome
        && (order.delivery_person_id != some user.id)) = true
      · exact absurd (hg.1 hb) hP
      · simpa using hb
    obtain ⟨res, hres, hres1⟩ :=
      update_order_status_ok order_id status user orders chats messages order hfind hgf
    refine ⟨res, hres, ?_⟩
    intro o ho hid
    rw [hres1] at ho
    exact status_of_mem_map orders _ order_id o ho hid
  · intro hP
    have hgt := hg.2 hP
    unfold update_order_status
    rw [hfind]
    simp only [hgt, if_true]
  · intro hd
    simp [get_pending_orders, hd]

/-- Witness for C10: a non-delivery user completes an existing order, yet is
rejected when listing pending orders. -/
theorem C10_witness :
    (∃ res, update_order_status 7 "completed" ⟨3, "Ana", "a@espol.edu.ec", false⟩
        [⟨7, 5, 2, 6, "FIEC", "B1", "Efectivo", none, 1, 10, "pending"⟩] [] [] = .ok res ∧
        ∀ o ∈ res.1, (o.id == 7) = true → o.status = "completed") ∧
      get_pending_orders ⟨3, "Ana", "a@espol.edu.ec", false⟩
        [⟨7, 5, 2, 6, "FIEC", "B1", "Efectivo", none, 1, 10, "pending"⟩] = .error 403 := by
  have h := C10_update_status_no_delivery_check ⟨3, "Ana", "a@espol.edu.ec", false⟩
    [⟨7, 5, 2, 6, "FIEC", "B1", "Efectivo", none, 1, 10, "pending"⟩] [] [] 7 "completed"
    ⟨7, 5, 2, 6, "FIEC", "B1", "Efectivo", none, 1, 10, "pending"⟩ (by rfl)
  refine ⟨h.1 ?_, h.2.2 (by rfl)⟩
  rintro ⟨h1, -⟩
  exact absurd h1 (by decide)

end Polimarket
